import Mathlib

/-!
Verification of the HandHockey game logic and persistence layer.

The definitions below are a shallow embedding of `game_logic.py` and
`database.py`: Python integers become `Int`, strings become `String`,
dictionaries become association lists, and the Python `dict.get` fallback
becomes `Option.getD`.  Case conversion (`strUpper` / `strLower`) maps
`Char.toUpper` / `Char.toLower` over the characters, which agrees with
Python's `str.upper` / `str.lower` on the ASCII role and scenario names
used throughout.
-/

/-- Python's `str.upper` on the ASCII role and scenario names used by the
game logic: uppercase every character. -/
def strUpper (s : String) : String := ⟨s.data.map Char.toUpper⟩

/-- Python's `str.lower` on the ASCII names used by the game logic. -/
def strLower (s : String) : String := ⟨s.data.map Char.toLower⟩

/-- The static range table of `GameLogic.get_action_range`
(`game_logic.py`, `ranges`).  Keys are (attacker role, defender role,
scenario); values are inclusive integer ranges. -/
def rangesTable : List ((String × String × String) × (Int × Int)) :=
  [ (("ST", "DEF", "dribbling"), (1, 3)),
    (("ST", "MF", "dribbling"), (1, 3)),
    (("MF", "DEF", "passing"), (1, 3)),
    (("ST", "GK", "shooting"), (1, 6)),
    (("ST", "MF", "quick_pass"), (1, 2)),
    (("ST", "DEF", "corner_kick"), (4, 6)),
    (("GK", "ANY", "interception"), (1, 3)),
    (("MF", "GK", "long_shot"), (2, 5)),
    (("DEF", "ST", "tackle"), (1, 4)),
    (("ANY", "ANY", "default"), (1, 3)) ]

/-- Embedding of `GameLogic.get_action_range`: look the upper-cased roles and
lower-cased scenario up in the table; a missing key falls back to
`ranges[("ANY", "ANY", "default")]`, which is `(1, 3)`. -/
def get_action_range (attacker_role defender_role scenario : String) : Int × Int :=
  let key := (strUpper attacker_role, strUpper defender_role, strLower scenario)
  match rangesTable.lookup key with
  | some r => r
  | none => (1, 3)

/-- The dictionary returned by `GameLogic.evaluate_action`.  The
`next_action` key is absent in the `invalid_action` branches, hence the
`Option`. -/
structure ActionResult where
  result : String
  description : String
  success : Bool
  next_action : Option String
deriving DecidableEq, Repr

/-- The f-string of the two `invalid_action` branches of
`GameLogic.evaluate_action`. -/
def invalidDescription (role : String) (lo hi : Int) : String :=
  "Invalid action for " ++ role ++ ". Must be between " ++ toString lo ++ "-" ++ toString hi

/-- Embedding of `GameLogic.evaluate_action`: validate both submitted integers against
the resolved range, then compare them.  Note that the `goal` branch tests
`scenario == "shooting"` on the raw scenario string, exactly as the
source does. -/
def evaluate_action (attacker_action defender_action : Int)
    (attacker_role defender_role scenario : String) : ActionResult :=
  let valid_range := get_action_range attacker_role defender_role scenario
  let lo := valid_range.1
  let hi := valid_range.2
  if ¬ (lo ≤ attacker_action ∧ attacker_action ≤ hi) then
    { result := "invalid_action",
      description := invalidDescription attacker_role lo hi,
      success := false,
      next_action := none }
  else if ¬ (lo ≤ defender_action ∧ defender_action ≤ hi) then
    { result := "invalid_action",
      description := invalidDescription defender_role lo hi,
      success := false,
      next_action := none }
  else if attacker_action = defender_action then
    if strUpper defender_role = "GK" then
      { result := "save",
        description := "Goalkeeper makes a crucial save!",
        success := false,
        next_action := some "corner_kick" }
    else if strUpper attacker_role = "ST" ∧ strUpper defender_role = "DEF" then
      { result := "foul",
        description := "Defensive foul committed!",
        success := true,
        next_action := some "free_kick" }
    else
      { result := "interception",
        description := "Ball intercepted! Possession changes.",
        success := false,
        next_action := some "possession_change" }
  else if attacker_action > defender_action then
    if scenario = "shooting" ∧ strUpper defender_role = "GK" then
      { result := "goal",
        description := "GOAL! What a fantastic strike!",
        success := true,
        next_action := some "kickoff" }
    else
      { result := "success",
        description := "Action successful! Attacker advances.",
        success := true,
        next_action := some "continue_attack" }
  else
    if strUpper defender_role = "GK" then
      { result := "save",
        description := "Great save by the goalkeeper!",
        success := false,
        next_action := some "goalkeeper_possession" }
    else
      { result := "blocked",
        description := "Action blocked by defender!",
        success := false,
        next_action := some "possession_change" }

/-- Table `role_advantages` of `GameLogic.calculate_success_probability`;
decimal literals become exact rationals. -/
def role_advantages : List ((String × String) × ℚ) :=
  [ (("ST", "DEF"), 6/10),
    (("ST", "MF"), 7/10),
    (("ST", "GK"), 4/10),
    (("MF", "DEF"), 5/10),
    (("MF", "GK"), 3/10),
    (("DEF", "ST"), 4/10) ]

/-- Table `scenario_modifiers` of `GameLogic.calculate_success_probability`. -/
def scenario_modifiers : List (String × ℚ) :=
  [ ("shooting", -1/10),
    ("dribbling", 0),
    ("passing", 1/10),
    ("corner_kick", 2/10),
    ("free_kick", 15/100),
    ("penalty", 8/10) ]

/-- Embedding of `GameLogic.calculate_success_probability`: base probability from the
role pair (default 0.5), additive scenario modifier (default 0.0),
clamped to [0.1, 0.9]. -/
def calculate_success_probability (attacker_role defender_role scenario : String) : ℚ :=
  let base_prob := (role_advantages.lookup (strUpper attacker_role, strUpper defender_role)).getD (5/10)
  let scenario_mod := (scenario_modifiers.lookup (strLower scenario)).getD 0
  max (1/10) (min (9/10) (base_prob + scenario_mod))

/-- The `required_positions` dictionary of
`GameLogic.validate_team_formation`, in its iteration order. -/
def required_positions : List (String × Nat) :=
  [ ("GK", 1), ("DEF", 1), ("MF", 1), ("ST", 1) ]

/-- The count `position_counts.get(position, 0)` after the counting loop
of `GameLogic.validate_team_formation`: how many roster entries upper-case
to the given position. -/
def position_count (team_players : List (String × String)) (position : String) : Nat :=
  team_players.countP (fun p => strUpper p.2 = position)

/-- The checking loop of `GameLogic.validate_team_formation`: return on
the first required position whose count falls short. -/
def checkRequired (team_players : List (String × String)) :
    List (String × Nat) → Bool × String
  | [] => (true, "Formation is valid")
  | (position, required_count) :: rest =>
    if position_count team_players position < required_count then
      (false, "Team needs at least " ++ toString required_count ++ " " ++ position)
    else
      checkRequired team_players rest

/-- Embedding of `GameLogic.validate_team_formation`: the roster is an association list
of player id to position (Python dict iteration preserves insertion
order). -/
def validate_team_formation (team_players : List (String × String)) : Bool × String :=
  checkRequired team_players required_positions

/-- One team's entry of `MatchState.stats`: the four fixed stat keys. -/
structure TeamStats where
  shots : Int
  saves : Int
  fouls : Int
  corners : Int
deriving DecidableEq, Repr

/-- The in-memory state of `MatchState` (`game_logic.py`).  The Python
`score` and `stats` dictionaries only ever hold the keys `"A"` and `"B"`
(no code adds keys), so they are split into per-team fields. -/
structure MatchState where
  match_id : String
  score_A : Int
  score_B : Int
  possession : String
  current_scenario : String
  turn_count : Nat
  match_time : Nat
  status : String
  stats_A : TeamStats
  stats_B : TeamStats
deriving DecidableEq, Repr

/-- Embedding of `MatchState.__init__`. -/
def MatchState.init (mid : String) : MatchState :=
  { match_id := mid,
    score_A := 0,
    score_B := 0,
    possession := "A",
    current_scenario := "kickoff",
    turn_count := 0,
    match_time := 0,
    status := "active",
    stats_A := { shots := 0, saves := 0, fouls := 0, corners := 0 },
    stats_B := { shots := 0, saves := 0, fouls := 0, corners := 0 } }

/-- Embedding of `MatchState.update_score`: `if team in self.score` guards the update,
so an unknown team name is a no-op. -/
def MatchState.update_score (s : MatchState) (team : String) (points : Int) : MatchState :=
  if team = "A" then { s with score_A := s.score_A + points }
  else if team = "B" then { s with score_B := s.score_B + points }
  else s

/-- Embedding of `MatchState.switch_possession`:
`self.possession = "B" if self.possession == "A" else "A"`. -/
def MatchState.switch_possession (s : MatchState) : MatchState :=
  { s with possession := if s.possession = "A" then "B" else "A" }

/-- The inner update of `MatchState.update_stats`: `stat_type` must be one
of the four keys present in the stats dictionary, otherwise no-op. -/
def TeamStats.update (ts : TeamStats) (stat_type : String) (value : Int) : TeamStats :=
  if stat_type = "shots" then { ts with shots := ts.shots + value }
  else if stat_type = "saves" then { ts with saves := ts.saves + value }
  else if stat_type = "fouls" then { ts with fouls := ts.fouls + value }
  else if stat_type = "corners" then { ts with corners := ts.corners + value }
  else ts

/-- Embedding of `MatchState.update_stats`: guarded by
`if team in self.stats and stat_type in self.stats[team]`. -/
def MatchState.update_stats (s : MatchState) (team stat_type : String) (value : Int) : MatchState :=
  if team = "A" then { s with stats_A := s.stats_A.update stat_type value }
  else if team = "B" then { s with stats_B := s.stats_B.update stat_type value }
  else s

/-- The snapshot dictionary returned by `MatchState.get_match_summary`. -/
structure MatchSummary where
  match_id : String
  score_A : Int
  score_B : Int
  possession : String
  scenario : String
  time : Nat
  status : String
  stats_A : TeamStats
  stats_B : TeamStats
  turn_count : Nat
deriving DecidableEq, Repr

/-- Embedding of `MatchState.get_match_summary`: a pure read of every field; the state
is not mutated. -/
def MatchState.get_match_summary (s : MatchState) : MatchSummary :=
  { match_id := s.match_id,
    score_A := s.score_A,
    score_B := s.score_B,
    possession := s.possession,
    scenario := s.current_scenario,
    time := s.match_time,
    status := s.status,
    stats_A := s.stats_A,
    stats_B := s.stats_B,
    turn_count := s.turn_count }

/-- One call against a `MatchState`, with arbitrary arguments. -/
inductive MatchOp where
  | update_score (team : String) (points : Int)
  | switch_possession
  | update_stats (team stat_type : String) (value : Int)
  | get_match_summary
deriving DecidableEq, Repr

/-- The state after one `MatchOp` (`get_match_summary` only reads). -/
def applyOp (s : MatchState) : MatchOp → MatchState
  | .update_score team points => s.update_score team points
  | .switch_possession => s.switch_possession
  | .update_stats team stat_type value => s.update_stats team stat_type value
  | .get_match_summary => s

/-- The state after a finite sequence of operations on a fresh state. -/
def runOps (mid : String) (ops : List MatchOp) : MatchState :=
  ops.foldl applyOp (MatchState.init mid)

/-- A Python value as passed in the keyword arguments of the dynamic
update builders of `database.py`: an integer/decimal, a string, or a
non-string iterable (modelled as a list of integers). -/
inductive PyValue where
  | int (n : Int)
  | str (s : String)
  | list (xs : List Int)
deriving DecidableEq, Repr

/-- The filter test of `DatabaseManager.update_player_stats`:
`hasattr(value, '__iter__') and not isinstance(value, str)`. -/
def PyValue.isNonStringIterable : PyValue → Bool
  | .list _ => true
  | _ => false

/-- A row of the `players` table: the key and name columns explicitly,
the dynamically updatable stat columns as an association list. -/
structure PlayerRow where
  user_id : Int
  username : String
  display_name : Option String
  cols : List (String × PyValue)
deriving DecidableEq, Repr

/-- A row of the `matches` table: the columns the queries test
explicitly, the score/stat columns as an association list. -/
structure MatchRow where
  match_id : String
  host_id : Int
  status : String
  created_at : Int
  cols : List (String × PyValue)
deriving DecidableEq, Repr

/-- A row of the `match_players` table. -/
structure MatchPlayerRow where
  match_id : String
  user_id : Int
  team : Option String
  role : Option String
  is_captain : Bool
  joined_at : Int
deriving DecidableEq, Repr

/-- The contents of the SQL store the pool talks to. -/
structure DBState where
  players : List PlayerRow
  matchRows : List MatchRow
  matchPlayers : List MatchPlayerRow
deriving DecidableEq, Repr

/-- Embedding of `DatabaseManager`: `pool` is `None` until `initialize` succeeds;
`queryFails` models the underlying driver raising on query execution
(a genuine query failure). -/
structure DBManager where
  pool : Option DBState
  queryFails : Bool
deriving DecidableEq, Repr

/-- Whether a call raised an exception. -/
def isError {α : Type} : Except String α → Bool
  | Except.error _ => true
  | Except.ok _ => false

/-- Embedding of `DatabaseManager.get_player`: guarded by `if not self.pool` (returns
`None`) and a `try/except` that logs and returns `None` on any query
failure. -/
def DBManager.get_player (db : DBManager) (user_id : Int) :
    Except String (Option PlayerRow) :=
  match db.pool with
  | none => Except.ok none
  | some s =>
    if db.queryFails then Except.ok none
    else Except.ok (s.players.find? (fun p => p.user_id == user_id))

/-- Embedding of `DatabaseManager.get_match`: same guard and `try/except` as
`get_player`. -/
def DBManager.get_match (db : DBManager) (match_id : String) :
    Except String (Option MatchRow) :=
  match db.pool with
  | none => Except.ok none
  | some s =>
    if db.queryFails then Except.ok none
    else Except.ok (s.matchRows.find? (fun m => m.match_id == match_id))

/-- Embedding of `DatabaseManager.get_active_matches`: no pool guard and no
`try/except` — `self.pool.acquire()` on an uninitialized pool raises
`AttributeError`, and a query failure propagates.  On success: rows with
status `waiting` or `ongoing`, newest `created_at` first. -/
def DBManager.get_active_matches (db : DBManager) :
    Except String (List MatchRow) :=
  match db.pool with
  | none => Except.error "AttributeError: NoneType has no attribute acquire"
  | some s =>
    if db.queryFails then Except.error "query failed"
    else
      Except.ok
        (List.insertionSort (fun a b => b.created_at ≤ a.created_at)
          (s.matchRows.filter (fun m => m.status == "waiting" || m.status == "ongoing")))

/-- Embedding of `DatabaseManager.get_user_active_match`: no pool guard and no
`try/except`; `LIMIT 1` on the hosts' active matches. -/
def DBManager.get_user_active_match (db : DBManager) (user_id : Int) :
    Except String (Option MatchRow) :=
  match db.pool with
  | none => Except.error "AttributeError: NoneType has no attribute acquire"
  | some s =>
    if db.queryFails then Except.error "query failed"
    else
      Except.ok
        (s.matchRows.find? (fun m =>
          m.host_id == user_id && (m.status == "waiting" || m.status == "ongoing")))

/-- Embedding of `DatabaseManager.get_match_players`: no pool guard and no
`try/except`.  On success: the match's `match_players` rows inner-joined
with `players` for username/display name, ordered by team then join
time. -/
def DBManager.get_match_players (db : DBManager) (match_id : String) :
    Except String (List (MatchPlayerRow × String × Option String)) :=
  match db.pool with
  | none => Except.error "AttributeError: NoneType has no attribute acquire"
  | some s =>
    if db.queryFails then Except.error "query failed"
    else
      let joined := (s.matchPlayers.filter (fun mp => mp.match_id == match_id)).filterMap
        (fun mp => (s.players.find? (fun p => p.user_id == mp.user_id)).map
          (fun p => (mp, p.username, p.display_name)))
      Except.ok (List.insertionSort (fun a b =>
        a.1.team.getD "" < b.1.team.getD "" ∨
        (a.1.team.getD "" = b.1.team.getD "" ∧ a.1.joined_at ≤ b.1.joined_at)) joined)

/-- SQL `SET key = value` on a row held as an association list: replace
the existing binding (append a fresh one for a column the row lacks). -/
def setColumn : List (String × PyValue) → String → PyValue → List (String × PyValue)
  | [], k, v => [(k, v)]
  | (k0, v0) :: rest, k, v =>
    if k0 = k then (k0, v) :: rest else (k0, v0) :: setColumn rest k v

/-- Apply a list of `SET` clauses left to right. -/
def setColumns (row : List (String × PyValue)) (clauses : List (String × PyValue)) :
    List (String × PyValue) :=
  clauses.foldl (fun r kv => setColumn r kv.1 kv.2) row

/-- The filtering loop of `DatabaseManager.update_player_stats`: skip
values that are iterable but not strings. -/
def filterPlayerStats (stats : List (String × PyValue)) : List (String × PyValue) :=
  stats.filter (fun kv => ¬ kv.2.isNonStringIterable)

/-- Embedding of `DatabaseManager.update_player_stats`: returns `False` on an empty
keyword set, and again after the filter empties it, before any database
access; otherwise runs the built `UPDATE` (alsa setting `updated_at` to
the current time) and reports whether a row was affected. -/
def DBManager.update_player_stats (db : DBManager) (user_id : Int)
    (stats : List (String × PyValue)) (now : Int) : Except String (Bool × DBManager) :=
  if stats.isEmpty then Except.ok (false, db)
  else
    let set_clauses := filterPlayerStats stats
    if set_clauses.isEmpty then Except.ok (false, db)
    else
      match db.pool with
      | none => Except.error "AttributeError: NoneType has no attribute acquire"
      | some s =>
        if db.queryFails then Except.error "query failed"
        else
          match s.players.find? (fun p => p.user_id == user_id) with
          | none => Except.ok (false, db)
          | some p =>
            let p2 := { p with
              cols := setColumns (setColumns p.cols set_clauses) [("updated_at", PyValue.int now)] }
            Except.ok (true, { db with
              pool := some { s with
                players := s.players.map (fun q => if q.user_id == user_id then p2 else q) } })

/-- The `allowed_fields` list of `DatabaseManager.update_match_score`. -/
def allowed_fields : List String :=
  ["team_a_score", "team_b_score", "score_a", "score_b",
   "shots_a", "shots_b", "saves_a", "saves_b"]

/-- Embedding of `DatabaseManager.update_match_score`: returns `False` on an empty
keyword set, and again after restricting to the allow-listed columns,
before any database access; otherwise runs the built `UPDATE` and
reports whether a row was affected. -/
def DBManager.update_match_score (db : DBManager) (match_id : String)
    (score_data : List (String × PyValue)) : Except String (Bool × DBManager) :=
  if score_data.isEmpty then Except.ok (false, db)
  else
    let set_clauses := score_data.filter (fun kv => allowed_fields.contains kv.1)
    if set_clauses.isEmpty then Except.ok (false, db)
    else
      match db.pool with
      | none => Except.error "AttributeError: NoneType has no attribute acquire"
      | some s =>
        if db.queryFails then Except.error "query failed"
        else
          match s.matchRows.find? (fun m => m.match_id == match_id) with
          | none => Except.ok (false, db)
          | some m =>
            let m2 := { m with cols := setColumns m.cols set_clauses }
            Except.ok (true, { db with
              pool := some { s with
                matchRows := s.matchRows.map (fun q => if q.match_id == match_id then m2 else q) } })

example : get_action_range "st" "gk" "SHOOTING" = (1, 6) := by decide
example : get_action_range "ST" "ST" "shooting" = (1, 3) := by decide
example : (evaluate_action 3 2 "ST" "GK" "shooting").result = "goal" := by decide
example : (evaluate_action 3 2 "ST" "GK" "Shooting").result = "success" := by decide
example : (evaluate_action 2 2 "ST" "gk" "default").result = "save" := by decide
example : (evaluate_action 2 2 "st" "def" "dribbling").result = "foul" := by decide
example : (evaluate_action 1 2 "MF" "DEF" "passing").result = "blocked" := by decide
example : (evaluate_action 0 2 "MF" "DEF" "passing").description =
    invalidDescription "MF" 1 3 := by decide
example : validate_team_formation [("1", "st"), ("2", "mf"), ("3", "def")] =
    (false, "Team needs at least 1 GK") := by decide

/-- Claim C6: for every (attacker role, defender role, scenario) triple
that, after upper-casing the roles and lower-casing the scenario, is
absent from the static range table, `get_action_range` returns the
default range (1, 3). -/
theorem get_action_range_default (attacker_role defender_role scenario : String)
    (h : rangesTable.lookup
      (strUpper attacker_role, strUpper defender_role, strLower scenario) = none) :
    get_action_range attacker_role defender_role scenario = (1, 3) := by
  unfold get_action_range
  simp [h]

/-- Witness for C6 at the triple ("ST", "ST", "shooting"), absent from
the table. -/
theorem get_action_range_default_witness :
    rangesTable.lookup (strUpper "ST", strUpper "ST", strLower "shooting") = none ∧
    get_action_range "ST" "ST" "shooting" = (1, 3) :=
  ⟨by decide, get_action_range_default "ST" "ST" "shooting" (by decide)⟩

/-- Claim C8: for every attacker role, defender role and scenario
(including names absent from the advantage and modifier tables),
`calculate_success_probability` lies in the closed interval
[0.1, 0.9]. -/
theorem calculate_success_probability_clamped (attacker_role defender_role scenario : String) :
    1/10 ≤ calculate_success_probability attacker_role defender_role scenario ∧
    calculate_success_probability attacker_role defender_role scenario ≤ 9/10 := by
  unfold calculate_success_probability
  exact ⟨le_max_left _ _, max_le (by norm_num) (min_le_left _ _)⟩

/-- Claim C3: for every pair of equal in-range submitted integers,
`evaluate_action` returns "save" whenever the defender role upper-cases
to GK, "foul" whenever the attacker role is ST and the defender role is
DEF (case-insensitively), and "interception" for every other role
combination. -/
theorem evaluate_action_equal (a : Int) (attacker_role defender_role scenario : String)
    (h1 : (get_action_range attacker_role defender_role scenario).1 ≤ a)
    (h2 : a ≤ (get_action_range attacker_role defender_role scenario).2) :
    (evaluate_action a a attacker_role defender_role scenario).result =
      (if strUpper defender_role = "GK" then "save"
       else if strUpper attacker_role = "ST" ∧ strUpper defender_role = "DEF" then "foul"
       else "interception") := by
  simp only [evaluate_action]
  rw [if_neg (not_not_intro ⟨h1, h2⟩), if_neg (not_not_intro ⟨h1, h2⟩), if_pos trivial]
  by_cases hgk : strUpper defender_role = "GK"
  · simp [hgk]
  · by_cases hsd : strUpper attacker_role = "ST" ∧ strUpper defender_role = "DEF"
    · simp [hgk, hsd]
    · simp [hgk, hsd]

/-- Witness for C3 at equal submissions 2 = 2, attacker "st" vs defender
"gk" in scenario "default" (range (1, 3)): outcome "save". -/
theorem evaluate_action_equal_witness :
    (get_action_range "st" "gk" "default").1 ≤ 2 ∧
    (2:Int) ≤ (get_action_range "st" "gk" "default").2 ∧
    (evaluate_action 2 2 "st" "gk" "default").result =
      (if strUpper "gk" = "GK" then "save"
       else if strUpper "st" = "ST" ∧ strUpper "gk" = "DEF" then "foul"
       else "interception") :=
  ⟨by decide, by decide, evaluate_action_equal 2 "st" "gk" "default" (by decide) (by decide)⟩

/-- Claim C4: for every pair of in-range submitted integers with the
defender's integer strictly greater, `evaluate_action` returns "save"
when the defender role upper-cases to GK and "blocked" for any other
defender role. -/
theorem evaluate_action_defender_greater (attacker_action defender_action : Int)
    (attacker_role defender_role scenario : String)
    (h1 : (get_action_range attacker_role defender_role scenario).1 ≤ attacker_action)
    (h2 : attacker_action ≤ (get_action_range attacker_role defender_role scenario).2)
    (h3 : (get_action_range attacker_role defender_role scenario).1 ≤ defender_action)
    (h4 : defender_action ≤ (get_action_range attacker_role defender_role scenario).2)
    (hlt : attacker_action < defender_action) :
    (evaluate_action attacker_action defender_action attacker_role defender_role scenario).result =
      (if strUpper defender_role = "GK" then "save" else "blocked") := by
  simp only [evaluate_action]
  rw [if_neg (not_not_intro ⟨h1, h2⟩), if_neg (not_not_intro ⟨h3, h4⟩),
    if_neg (ne_of_lt hlt), if_neg (by omega : ¬ attacker_action > defender_action)]
  by_cases hgk : strUpper defender_role = "GK"
  · simp [hgk]
  · simp [hgk]

/-- Witness for C4 at 1 vs 2, "MF" vs "DEF" in "passing" (range (1, 3)):
outcome "blocked". -/
theorem evaluate_action_defender_greater_witness :
    (get_action_range "MF" "DEF" "passing").1 ≤ 1 ∧
    (2:Int) ≤ (get_action_range "MF" "DEF" "passing").2 ∧ (1:Int) < 2 ∧
    (evaluate_action 1 2 "MF" "DEF" "passing").result =
      (if strUpper "DEF" = "GK" then "save" else "blocked") :=
  ⟨by decide, by decide, by decide,
    evaluate_action_defender_greater 1 2 "MF" "DEF" "passing"
      (by decide) (by decide) (by decide) (by decide) (by decide)⟩

/-- Counterexample for claim C1: at attacker 3 vs defender 2, roles
"ST" vs "GK", scenario "Shooting", the range lookup is case-insensitive
(the triple resolves to the (1, 6) shooting range, both integers are
inside it, the scenario lower-cases to "shooting" and the defender role
upper-cases to "GK"), so the claim requires outcome "goal" — but the goal
branch compares the raw scenario string against "shooting"
case-sensitively, and the outcome is "success". -/
theorem evaluate_action_goal_scenario_case_cex :
    get_action_range "ST" "GK" "Shooting" = (1, 6) ∧
    strLower "Shooting" = "shooting" ∧
    strUpper "GK" = "GK" ∧
    (2:Int) < 3 ∧
    (evaluate_action 3 2 "ST" "GK" "Shooting").result = "success" ∧
    ¬ (evaluate_action 3 2 "ST" "GK" "Shooting").result = "goal" := by
  refine ⟨by decide, by decide, by decide, by decide, by decide, by decide⟩

/-- Claim C1 as amended: for in-range submissions with the attacker's
integer strictly greater, the outcome is "goal" exactly when the raw
scenario string equals "shooting" (the comparison is case-sensitive,
unlike the range lookup) and the defender role upper-cases to "GK";
otherwise the outcome is "success". -/
theorem evaluate_action_attacker_greater (attacker_action defender_action : Int)
    (attacker_role defender_role scenario : String)
    (h1 : (get_action_range attacker_role defender_role scenario).1 ≤ attacker_action)
    (h2 : attacker_action ≤ (get_action_range attacker_role defender_role scenario).2)
    (h3 : (get_action_range attacker_role defender_role scenario).1 ≤ defender_action)
    (h4 : defender_action ≤ (get_action_range attacker_role defender_role scenario).2)
    (hgt : defender_action < attacker_action) :
    (evaluate_action attacker_action defender_action attacker_role defender_role scenario).result =
      (if scenario = "shooting" ∧ strUpper defender_role = "GK" then "goal" else "success") := by
  simp only [evaluate_action]
  rw [if_neg (not_not_intro ⟨h1, h2⟩), if_neg (not_not_intro ⟨h3, h4⟩),
    if_neg (by omega : ¬ attacker_action = defender_action),
    if_pos (by omega : attacker_action > defender_action)]
  by_cases hs : scenario = "shooting" ∧ strUpper defender_role = "GK"
  · simp [hs]
  · simp [hs]

/-- Witness for the amended C1 at 3 vs 2, "ST" vs "GK", scenario
"shooting": outcome "goal". -/
theorem evaluate_action_attacker_greater_witness :
    (get_action_range "ST" "GK" "shooting").1 ≤ 3 ∧
    (2:Int) < 3 ∧
    (evaluate_action 3 2 "ST" "GK" "shooting").result =
      (if "shooting" = "shooting" ∧ strUpper "GK" = "GK" then "goal" else "success") :=
  ⟨by decide, by decide,
    evaluate_action_attacker_greater 3 2 "ST" "GK" "shooting"
      (by decide) (by decide) (by decide) (by decide) (by decide)⟩

/-- Claim C5: whenever the attacker's or the defender's submitted integer
lies outside the resolved inclusive range, `evaluate_action` returns
"invalid_action" with success false, and the description names the role
of the out-of-range side — the attacker's when the attacker's integer is
out of range, otherwise the defender's. -/
theorem evaluate_action_out_of_range (attacker_action defender_action : Int)
    (attacker_role defender_role scenario : String)
    (h : ¬ ((get_action_range attacker_role defender_role scenario).1 ≤ attacker_action ∧
            attacker_action ≤ (get_action_range attacker_role defender_role scenario).2) ∨
         ¬ ((get_action_range attacker_role defender_role scenario).1 ≤ defender_action ∧
            defender_action ≤ (get_action_range attacker_role defender_role scenario).2)) :
    (evaluate_action attacker_action defender_action attacker_role defender_role scenario).result
      = "invalid_action" ∧
    (evaluate_action attacker_action defender_action attacker_role defender_role scenario).success
      = false ∧
    (evaluate_action attacker_action defender_action attacker_role defender_role scenario).description
      = (if ¬ ((get_action_range attacker_role defender_role scenario).1 ≤ attacker_action ∧
               attacker_action ≤ (get_action_range attacker_role defender_role scenario).2)
         then invalidDescription attacker_role
                (get_action_range attacker_role defender_role scenario).1
                (get_action_range attacker_role defender_role scenario).2
         else invalidDescription defender_role
                (get_action_range attacker_role defender_role scenario).1
                (get_action_range attacker_role defender_role scenario).2) := by
  by_cases ha : (get_action_range attacker_role defender_role scenario).1 ≤ attacker_action ∧
      attacker_action ≤ (get_action_range attacker_role defender_role scenario).2
  · have hd : ¬ ((get_action_range attacker_role defender_role scenario).1 ≤ defender_action ∧
        defender_action ≤ (get_action_range attacker_role defender_role scenario).2) :=
      h.resolve_left (not_not_intro ha)
    simp only [evaluate_action]
    rw [if_neg (not_not_intro ha), if_pos hd, if_neg (not_not_intro ha)]
    exact ⟨rfl, rfl, rfl⟩
  · simp only [evaluate_action]
    rw [if_pos ha, if_pos ha]
    exact ⟨rfl, rfl, rfl⟩

/-- Witness for C5 at 0 vs 2, "MF" vs "DEF", scenario "passing"
(range (1, 3)): the attacker's integer is out of range and the
description names "MF". -/
theorem evaluate_action_out_of_range_witness :
    ¬ ((get_action_range "MF" "DEF" "passing").1 ≤ 0 ∧
       (0:Int) ≤ (get_action_range "MF" "DEF" "passing").2) ∧
    (evaluate_action 0 2 "MF" "DEF" "passing").result = "invalid_action" ∧
    (evaluate_action 0 2 "MF" "DEF" "passing").success = false ∧
    (evaluate_action 0 2 "MF" "DEF" "passing").description =
      (if ¬ ((get_action_range "MF" "DEF" "passing").1 ≤ 0 ∧
             (0:Int) ≤ (get_action_range "MF" "DEF" "passing").2)
       then invalidDescription "MF" (get_action_range "MF" "DEF" "passing").1
              (get_action_range "MF" "DEF" "passing").2
       else invalidDescription "DEF" (get_action_range "MF" "DEF" "passing").1
              (get_action_range "MF" "DEF" "passing").2) :=
  ⟨by decide, evaluate_action_out_of_range 0 2 "MF" "DEF" "passing" (Or.inl (by decide))⟩

/-- Claim C7: for every team roster (positions compared
case-insensitively) that contains no goalkeeper, `validate_team_formation`
returns false with the message naming "GK" — the first missing role in
the table's iteration order — even when every other role is present. -/
theorem validate_team_formation_no_gk (team_players : List (String × String))
    (h : ∀ p ∈ team_players, strUpper p.2 ≠ "GK") :
    validate_team_formation team_players = (false, "Team needs at least 1 GK") := by
  have hc : position_count team_players "GK" = 0 := by
    unfold position_count
    rw [List.countP_eq_zero]
    intro p hp
    simpa using h p hp
  unfold validate_team_formation required_positions
  unfold checkRequired
  simp only [hc, Nat.zero_lt_one, if_pos]
  decide

/-- Witness for C7 at a roster covering ST, MF and DEF but no GK. -/
theorem validate_team_formation_no_gk_witness :
    (∀ p ∈ [("1", "st"), ("2", "mf"), ("3", "def")], strUpper p.2 ≠ "GK") ∧
    validate_team_formation [("1", "st"), ("2", "mf"), ("3", "def")] =
      (false, "Team needs at least 1 GK") :=
  ⟨by decide, validate_team_formation_no_gk [("1", "st"), ("2", "mf"), ("3", "def")] (by decide)⟩

/-- Each single `MatchState` operation keeps possession in {"A", "B"};
`switch_possession` even establishes it unconditionally. -/
theorem applyOp_possession (s : MatchState) (op : MatchOp)
    (h : s.possession = "A" ∨ s.possession = "B") :
    (applyOp s op).possession = "A" ∨ (applyOp s op).possession = "B" := by
  cases op with
  | update_score team points =>
    simp only [applyOp, MatchState.update_score]
    split
    · exact h
    · split
      · exact h
      · exact h
  | switch_possession =>
    simp only [applyOp, MatchState.switch_possession]
    split
    · exact Or.inr rfl
    · exact Or.inl rfl
  | update_stats team stat_type value =>
    simp only [applyOp, MatchState.update_stats]
    split
    · exact h
    · split
      · exact h
      · exact h
  | get_match_summary => exact h

/-- Possession stays in {"A", "B"} under any operation sequence. -/
theorem foldl_possession (ops : List MatchOp) (s : MatchState)
    (h : s.possession = "A" ∨ s.possession = "B") :
    ((ops.foldl applyOp s).possession = "A" ∨ (ops.foldl applyOp s).possession = "B") := by
  induction ops generalizing s with
  | nil => exact h
  | cons op rest ih => exact ih (applyOp s op) (applyOp_possession s op h)

/-- Claim C10: after any finite sequence of operations on a freshly
constructed `MatchState`, the possession field is exactly "A" or "B";
and `switch_possession` maps a state with possession "A" to "B" and one
with possession "B" to "A". -/
theorem matchState_possession_invariant (mid : String) (ops : List MatchOp) (t : MatchState) :
    ((runOps mid ops).possession = "A" ∨ (runOps mid ops).possession = "B") ∧
    ({ t with possession := "A" } : MatchState).switch_possession.possession = "B" ∧
    ({ t with possession := "B" } : MatchState).switch_possession.possession = "A" := by
  refine ⟨foldl_possession ops (MatchState.init mid) (Or.inl rfl), ?_, ?_⟩
  · simp [MatchState.switch_possession]
  · simp [MatchState.switch_possession]

/-- Claim C9: a call to `update_player_stats` or `update_match_score`
whose field set is empty, or becomes empty after filtering (non-string
iterables for player stats, non-allow-listed names for the match score),
returns false without raising and performs no database write: the whole
manager state, rows included, is returned unchanged. -/
theorem update_empty_field_set_no_write (db : DBManager) (user_id : Int) (match_id : String)
    (stats score_data : List (String × PyValue)) (now : Int)
    (h1 : filterPlayerStats stats = [])
    (h2 : score_data.filter (fun kv => allowed_fields.contains kv.1) = []) :
    db.update_player_stats user_id stats now = Except.ok (false, db) ∧
    db.update_match_score match_id score_data = Except.ok (false, db) := by
  constructor
  · unfold DBManager.update_player_stats
    by_cases hs : stats.isEmpty
    · rw [if_pos hs]
    · rw [if_neg hs]
      simp only [h1, List.isEmpty_nil, if_true]
  · unfold DBManager.update_match_score
    by_cases hs : score_data.isEmpty
    · rw [if_pos hs]
    · rw [if_neg hs]
      simp only [h2, List.isEmpty_nil, if_true]

/-- Witness for C9: a stats set holding only a non-string iterable and a
score set holding only a non-allow-listed field, against a store with one
player row and one match row; both calls return false and leave the
manager unchanged. -/
theorem update_empty_field_set_no_write_witness :
    filterPlayerStats [("goals", PyValue.list [1, 2])] = [] ∧
    DBManager.update_player_stats
      { pool := some
          { players := [{ user_id := 7, username := "u", display_name := none, cols := [] }],
            matchRows := [{ match_id := "m1", host_id := 7, status := "waiting",
                            created_at := 0, cols := [] }],
            matchPlayers := [] },
        queryFails := false } 7 [("goals", PyValue.list [1, 2])] 0 =
      Except.ok (false,
        { pool := some
            { players := [{ user_id := 7, username := "u", display_name := none, cols := [] }],
              matchRows := [{ match_id := "m1", host_id := 7, status := "waiting",
                              created_at := 0, cols := [] }],
              matchPlayers := [] },
          queryFails := false }) ∧
    DBManager.update_match_score
      { pool := some
          { players := [{ user_id := 7, username := "u", display_name := none, cols := [] }],
            matchRows := [{ match_id := "m1", host_id := 7, status := "waiting",
                            created_at := 0, cols := [] }],
            matchPlayers := [] },
        queryFails := false } "m1" [("bogus", PyValue.int 3)] =
      Except.ok (false,
        { pool := some
            { players := [{ user_id := 7, username := "u", display_name := none, cols := [] }],
              matchRows := [{ match_id := "m1", host_id := 7, status := "waiting",
                              created_at := 0, cols := [] }],
              matchPlayers := [] },
          queryFails := false }) := by
  refine ⟨by decide, ?_, ?_⟩
  · exact (update_empty_field_set_no_write
      { pool := some
          { players := [{ user_id := 7, username := "u", display_name := none, cols := [] }],
            matchRows := [{ match_id := "m1", host_id := 7, status := "waiting",
                            created_at := 0, cols := [] }],
            matchPlayers := [] },
        queryFails := false } 7 "m1" [("goals", PyValue.list [1, 2])] [("bogus", PyValue.int 3)] 0
      (by decide) (by decide)).1
  · exact (update_empty_field_set_no_write
      { pool := some
          { players := [{ user_id := 7, username := "u", display_name := none, cols := [] }],
            matchRows := [{ match_id := "m1", host_id := 7, status := "waiting",
                            created_at := 0, cols := [] }],
            matchPlayers := [] },
        queryFails := false } 7 "m1" [("goals", PyValue.list [1, 2])] [("bogus", PyValue.int 3)] 0
      (by decide) (by decide)).2

/-- Counterexample for claim C2: with the pool not yet initialized (and
no query even attempted), `get_active_matches` raises — the attribute
access on the `None` pool fails — instead of returning an empty list;
`get_user_active_match` and `get_match_players` behave the same way. -/
theorem reads_raise_on_uninitialized_pool_cex :
    isError (DBManager.get_active_matches { pool := none, queryFails := false }) = true ∧
    DBManager.get_active_matches { pool := none, queryFails := false } ≠ Except.ok [] ∧
    isError (DBManager.get_user_active_match { pool := none, queryFails := false } 1) = true ∧
    isError (DBManager.get_match_players { pool := none, queryFails := false } "m") = true := by
  refine ⟨rfl, ?_, rfl, rfl⟩
  simp [DBManager.get_active_matches]

/-- Claim C2 as amended: when the connection pool is not yet initialized
or the underlying query fails, the guarded reads `get_player` and
`get_match` return an absent result without raising, while
`get_active_matches`, `get_user_active_match` and `get_match_players`
— which have neither the pool guard nor a try/except — raise. -/
theorem reads_on_failure (db : DBManager) (user_id : Int) (match_id : String)
    (h : db.pool = none ∨ db.queryFails = true) :
    db.get_player user_id = Except.ok none ∧
    db.get_match match_id = Except.ok none ∧
    isError db.get_active_matches = true ∧
    isError (db.get_user_active_match user_id) = true ∧
    isError (db.get_match_players match_id) = true := by
  rcases h with h | h
  · refine ⟨?_, ?_, ?_, ?_, ?_⟩ <;>
      simp [DBManager.get_player, DBManager.get_match, DBManager.get_active_matches,
        DBManager.get_user_active_match, DBManager.get_match_players, h, isError]
  · rcases hp : db.pool with _ | s <;>
      refine ⟨?_, ?_, ?_, ?_, ?_⟩ <;>
        simp [DBManager.get_player, DBManager.get_match, DBManager.get_active_matches,
          DBManager.get_user_active_match, DBManager.get_match_players, h, hp, isError]

/-- Witness for the amended C2 at an uninitialized pool. -/
theorem reads_on_failure_witness :
    DBManager.get_player { pool := none, queryFails := false } 1 = Except.ok none ∧
    DBManager.get_match { pool := none, queryFails := false } "m" = Except.ok none ∧
    isError (DBManager.get_active_matches { pool := none, queryFails := false }) = true ∧
    isError (DBManager.get_user_active_match { pool := none, queryFails := false } 1) = true ∧
    isError (DBManager.get_match_players { pool := none, queryFails := false } "m") = true :=
  reads_on_failure { pool := none, queryFails := false } 1 "m" (Or.inl rfl)
